import Mathlib

/-!
Verification of the Minati Vault onboarding bot (`validators.py`,
`database.py`, `main.py`) against its natural-language specification.

Strings are modelled as Lean `String` / `List Char`; Python whitespace
stripping is modelled over the ASCII whitespace characters; timestamps
(`datetime.now()`) are modelled as an explicit `now : Nat` argument; the
MongoDB-backed record store is modelled as a pure record transformation
(single-record view) plus a keyed partial map for creation.
-/

namespace Vault

/-- ASCII whitespace, modelling the characters Python `str.strip()` removes. -/
def pyIsSpace (c : Char) : Bool :=
  c == ' ' || c == '\t' || c == '\n' || c == '\r' || c == '\x0b' || c == '\x0c'

/-- Python `s.strip()` : drop whitespace from both ends. -/
def pyStrip (l : List Char) : List Char :=
  ((l.dropWhile pyIsSpace).reverse.dropWhile pyIsSpace).reverse

/-- Python `s.lstrip('@')` : drop every leading `'@'`. -/
def pyLstripAt (l : List Char) : List Char :=
  l.dropWhile (· == '@')

/-- Python `s.lower()` (ASCII case folding). -/
def pyLower (l : List Char) : List Char :=
  l.map Char.toLower

/-- A hexadecimal digit, the character class of the regex `[a-fA-F0-9]`. -/
def isHexDigitChar (c : Char) : Bool :=
  ('0' ≤ c && c ≤ '9') || ('a' ≤ c && c ≤ 'f') || ('A' ≤ c && c ≤ 'F')

/-- The character class of the regex `[a-zA-Z0-9._]` in `validate_username`. -/
def isHandleChar (c : Char) : Bool :=
  ('a' ≤ c && c ≤ 'z') || ('A' ≤ c && c ≤ 'Z') || ('0' ≤ c && c ≤ '9') ||
    c == '.' || c == '_'

/-- Python's substring test `needle in hay` on strings as char lists. -/
def hasSubstring (needle : List Char) : List Char → Bool
  | [] => needle.isEmpty
  | c :: rest => needle.isPrefixOf (c :: rest) || hasSubstring needle rest

/-- The zero address blocked by `validate_bep20_address`. -/
def zeroAddress : String := "0x0000000000000000000000000000000000000000"

/-- The dead address blocked by `validate_bep20_address`. -/
def deadAddress : String := "0x000000000000000000000000000000000000dead"

/-- The regex `^0x[a-fA-F0-9]{40}$` from `validate_bep20_address`
(applied only to already-stripped input, so the `$`-before-final-newline
quirk of Python regexes cannot fire). -/
def bep20Match (l : List Char) : Bool :=
  match l with
  | c1 :: c2 :: rest =>
      c1 == '0' && c2 == 'x' && rest.length == 40 && rest.all isHexDigitChar
  | _ => false

/-- `Validators.validate_bep20_address` (validators.py lines 7-33). -/
def validate_bep20_address (address : String) : Bool × String :=
  if address = "" then (false, "Address cannot be empty")
  else
    let a := pyStrip address.data
    if !bep20Match a then
      (false, "Invalid BEP20 address format. Must be 42 characters starting with 0x")
    else if pyLower a == zeroAddress.data || pyLower a == deadAddress.data then
      (false, "Invalid address: Cannot use zero or dead addresses")
    else (true, "Valid BEP20 address")

/-- The `username.lstrip('@').strip()` normalisation of `validate_username`. -/
def strippedHandle (s : String) : List Char :=
  pyStrip (pyLstripAt s.data)

/-- `Validators.validate_username` (validators.py lines 36-70). -/
def validate_username (username : String) : Bool × String :=
  if username = "" then (false, "Username cannot be empty")
  else
    let u := strippedHandle username
    if u.length < 3 then (false, "Username must be at least 3 characters long")
    else if u.length > 30 then (false, "Username cannot be longer than 30 characters")
    else if !(!u.isEmpty && u.all isHandleChar) then
      (false, "Username can only contain letters, numbers, underscores, and dots")
    else if u.head? == some '_' || u.head? == some '.' then
      (false, "Username cannot start with underscore or dot")
    else if u.getLast? == some '_' || u.getLast? == some '.' then
      (false, "Username cannot end with underscore or dot")
    else if hasSubstring ['_', '_'] u || hasSubstring ['.', '.'] u ||
        hasSubstring ['.', '_'] u || hasSubstring ['_', '.'] u then
      (false, "Username cannot contain consecutive special characters")
    else (true, "Valid username")

/-- The accepted image extensions of `validate_screenshot`. -/
def validExtensions : List String := [".jpg", ".jpeg", ".png", ".gif", ".bmp", ".webp"]

/-- The extension test of `validate_screenshot`:
`any(file_name.lower().endswith(ext) for ext in valid_extensions)`. -/
def hasValidExtension (fileName : String) : Bool :=
  validExtensions.any (fun ext => ext.data.isSuffixOf (pyLower fileName.data))

/-- `Validators.validate_screenshot` (validators.py lines 73-90).
`file_size` is a Python `int`, hence `Int` (negative values possible). -/
def validate_screenshot (fileSize : Int) (fileName : String) : Bool × String :=
  if fileSize > 5 * 1024 * 1024 then
    (false, "File size too large. Maximum 5MB allowed")
  else if !hasValidExtension fileName then
    (false, "Invalid file type. Please send image files only (jpg, png, gif, etc.)")
  else (true, "Valid screenshot")

/-! ## Data model and progress store (database.py) -/

/-- One entry of the `screenshots` array. -/
structure Screenshot where
  fileId : String
  fileName : String
  uploadedAt : Nat
deriving DecidableEq, Repr

/-- A user document of the `users` collection (see `Database.create_user`).
`stepsCompleted` models the `steps_completed` subdocument as an association
list keyed by step number; `createdAt`/`updatedAt` are abstract timestamps. -/
structure UserRecord where
  userId : Nat
  username : String
  firstName : String
  currentStep : Nat
  stepsCompleted : List (Nat × Bool)
  bep20Address : Option String
  twitter : Option String
  instagram : Option String
  screenshots : List Screenshot
  createdAt : Nat
  updatedAt : Nat
deriving DecidableEq, Repr

/-- MongoDB `$set steps_completed.step_k` : overwrite the key or add it. -/
def setKey : List (Nat × Bool) → Nat → Bool → List (Nat × Bool)
  | [], k, v => [(k, v)]
  | (k', v') :: rest, k, v =>
      if k' = k then (k, v) :: rest else (k', v') :: setKey rest k v

/-- Reading `steps_completed.get('step_k')` with falsy default. -/
def getStep (m : List (Nat × Bool)) (k : Nat) : Bool :=
  (m.lookup k).getD false

/-- `Database.update_user_step` (database.py lines 41-57), on the record:
`current_step = step + 1 if completed else step`, sets `steps_completed.step_k`,
refreshes `updated_at`. -/
def updateUserStep (step : Nat) (completed : Bool) (now : Nat) (r : UserRecord) :
    UserRecord :=
  { r with currentStep := if completed then step + 1 else step,
           stepsCompleted := setKey r.stepsCompleted step completed,
           updatedAt := now }

/-- The two platforms `save_social_username` is invoked with. -/
inductive Platform
  | twitter
  | instagram
deriving DecidableEq, Repr

/-- `Database.save_social_username` (database.py lines 59-72), on the record. -/
def saveSocialUsername (p : Platform) (u : String) (now : Nat) (r : UserRecord) :
    UserRecord :=
  match p with
  | .twitter => { r with twitter := some u, updatedAt := now }
  | .instagram => { r with instagram := some u, updatedAt := now }

/-- `Database.save_bep20_address` (database.py lines 74-87), on the record. -/
def saveBep20Address (a : String) (now : Nat) (r : UserRecord) : UserRecord :=
  { r with bep20Address := some a, updatedAt := now }

/-- `Database.add_screenshot` (database.py lines 89-106), on the record. -/
def addScreenshot (fid fname : String) (now : Nat) (r : UserRecord) : UserRecord :=
  { r with screenshots := r.screenshots ++ [⟨fid, fname, now⟩], updatedAt := now }

/-- The `$set` document shared by `reset_command` (main.py lines 627-660) and
the `restart_process` branch of `button_handler` (main.py lines 283-298):
`current_step` back to 1, `steps_completed` emptied, both social usernames
nulled, `bep20_address` nulled, `updated_at` refreshed.  The `screenshots`
array is not touched (spec section 9 flags this asymmetry as deliberate to
preserve). -/
def resetUser (now : Nat) (r : UserRecord) : UserRecord :=
  { r with currentStep := 1, stepsCompleted := [],
           twitter := none, instagram := none,
           bep20Address := none, updatedAt := now }

/-- The initial document inserted by `Database.create_user`
(database.py lines 20-34). -/
def initRecord (id : Nat) (username firstName : String) (now : Nat) : UserRecord :=
  { userId := id, username := username, firstName := firstName,
    currentStep := 1, stepsCompleted := [], bep20Address := none,
    twitter := none, instagram := none, screenshots := [],
    createdAt := now, updatedAt := now }

/-- The `users` collection as a keyed partial map. -/
def Store := Nat → Option UserRecord

/-- `Database.create_user` (database.py lines 17-39): `insert_one` raises
`DuplicateKeyError` when the `_id` already exists; the exception handler
swallows it and returns `False`, leaving the collection unchanged. -/
def create_user (st : Store) (id : Nat) (username firstName : String) (now : Nat) :
    Store × Bool :=
  match st id with
  | some _ => (st, false)
  | none =>
      (fun i => if i = id then some (initRecord id username firstName now) else st i,
       true)

/-! ## Step state machine (main.py) -/

/-- The possible statuses `get_chat_member` can report. -/
inductive MemberStatus
  | member
  | administrator
  | owner
  | leftChat
  | kicked
  | restricted
deriving DecidableEq, Repr

/-- Outcome of the external membership query: either a status, or the query
raised (`BadRequest`/`Forbidden`/anything else). -/
inductive MembershipOutcome
  | ok (s : MemberStatus)
  | queryFailed
deriving DecidableEq, Repr

/-- `check_channel_membership` (main.py lines 27-45): `True` only for
member/administrator/owner; every other status and every raised exception
yields `False`. -/
def check_channel_membership : MembershipOutcome → Bool
  | .ok s => [MemberStatus.member, .administrator, .owner].contains s
  | .queryFailed => false

/-- `verify_social_follow` (main.py lines 47-56): a stub that only re-runs
username format validation. -/
def verify_social_follow (_p : Platform) (u : String) : Bool :=
  (validate_username u).fst

/-- The `callback_data` values handled by `button_handler`. -/
inductive ButtonEvent
  | verifyStep1
  | verifyTelegram
  | completeProcess
  | twitterInfo
  | instagramInfo
  | bep20Info
  | restartProcess
  | showStatus
  | helpInfo
deriving DecidableEq, Repr

/-- The distinct response branches of `button_handler` and `handle_message`. -/
inductive BotReply
  | step1Confirmed
  | notOnStep1
  | telegramVerified
  | telegramRetry
  | notOnTelegramStep
  | processCompleted
  | notOnFinalStep
  | infoTwitter
  | infoInstagram
  | infoBep20
  | restarted
  | statusShown
  | helpShown
  | twitterAccepted (u : String)
  | twitterNotVerified (u : String)
  | twitterInvalid (m : String)
  | twitterSaveFailed
  | instagramAccepted (u : String)
  | instagramNotVerified (u : String)
  | instagramInvalid (m : String)
  | instagramSaveFailed
  | bepSaved (a : String)
  | bepInvalid (m : String)
  | bepSaveFailed
  | stepPrompt (k : Nat)
deriving DecidableEq, Repr

/-- `button_handler` (main.py lines 163-345) on a loaded record.  `outcome`
is the result of the external membership query (consulted only on the
`verify_telegram` step-4 path); `now` is the event's timestamp. -/
def button_handler (outcome : MembershipOutcome) (now : Nat) (r : UserRecord) :
    ButtonEvent → UserRecord × BotReply
  | .verifyStep1 =>
      if r.currentStep = 1 then (updateUserStep 1 true now r, .step1Confirmed)
      else (r, .notOnStep1)
  | .verifyTelegram =>
      if r.currentStep = 4 then
        if check_channel_membership outcome then
          (updateUserStep 4 true now r, .telegramVerified)
        else (r, .telegramRetry)
      else (r, .notOnTelegramStep)
  | .completeProcess =>
      if r.currentStep = 6 then (updateUserStep 6 true now r, .processCompleted)
      else (r, .notOnFinalStep)
  | .twitterInfo => (r, .infoTwitter)
  | .instagramInfo => (r, .infoInstagram)
  | .bep20Info => (r, .infoBep20)
  | .restartProcess => (resetUser now r, .restarted)
  | .showStatus => (r, .statusShown)
  | .helpInfo => (r, .helpShown)

/-- `handle_message` (main.py lines 399-525) on a loaded record.  The
`modified_count > 0` success test of the save operations is modelled as
"the update changed the record".  Dispatch is on `current_step`: texts at
steps other than 2, 3 and 5 fall through to the default step prompt. -/
def handle_message (now : Nat) (r : UserRecord) (text : String) :
    UserRecord × BotReply :=
  let messageText := pyStrip text.data
  if r.currentStep = 2 then
    let username : String := ⟨pyStrip (pyLstripAt messageText)⟩
    let res := validate_username username
    if res.fst then
      if verify_social_follow .twitter username then
        let r1 := saveSocialUsername .twitter username now r
        if r1 ≠ r then (updateUserStep 2 true now r1, .twitterAccepted username)
        else (r1, .twitterSaveFailed)
      else (r, .twitterNotVerified username)
    else (r, .twitterInvalid res.snd)
  else if r.currentStep = 3 then
    let username : String := ⟨pyStrip (pyLstripAt messageText)⟩
    let res := validate_username username
    if res.fst then
      if verify_social_follow .instagram username then
        let r1 := saveSocialUsername .instagram username now r
        if r1 ≠ r then (updateUserStep 3 true now r1, .instagramAccepted username)
        else (r1, .instagramSaveFailed)
      else (r, .instagramNotVerified username)
    else (r, .instagramInvalid res.snd)
  else if r.currentStep = 5 then
    let res := validate_bep20_address ⟨messageText⟩
    if res.fst then
      let r1 := saveBep20Address ⟨messageText⟩ now r
      if r1 ≠ r then (updateUserStep 5 true now r1, .bepSaved ⟨messageText⟩)
      else (r1, .bepSaveFailed)
    else (r, .bepInvalid res.snd)
  else (r, .stepPrompt r.currentStep)

/-- Records reachable from creation through the event handlers:
button events, text events and the reset/restart operation. -/
inductive Reachable : UserRecord → Prop
  | init (id : Nat) (u f : String) (now : Nat) : Reachable (initRecord id u f now)
  | button (o : MembershipOutcome) (now : Nat) (e : ButtonEvent) {r : UserRecord} :
      Reachable r → Reachable (button_handler o now r e).fst
  | message (now : Nat) (t : String) {r : UserRecord} :
      Reachable r → Reachable (handle_message now r t).fst
  | resetCmd (now : Nat) {r : UserRecord} :
      Reachable r → Reachable (resetUser now r)

/-! ## Helper lemmas -/

theorem setKey_setKey (m : List (Nat × Bool)) (k : Nat) (v : Bool) :
    setKey (setKey m k v) k v = setKey m k v := by
  induction m with
  | nil => simp [setKey]
  | cons a rest ih =>
      obtain ⟨k', v'⟩ := a
      by_cases h : k' = k
      · simp [setKey, h]
      · simp [setKey, h, ih]

theorem getStep_cons (k' : Nat) (v' : Bool) (rest : List (Nat × Bool)) (n : Nat) :
    getStep ((k', v') :: rest) n = if n = k' then v' else getStep rest n := by
  by_cases h : n = k'
  · simp [getStep, List.lookup, h]
  · have hb : (n == k') = false := by simp [h]
    simp [getStep, List.lookup, hb, h]

theorem getStep_setKey (m : List (Nat × Bool)) (k n : Nat) (v : Bool) :
    getStep (setKey m k v) n = if n = k then v else getStep m n := by
  induction m with
  | nil =>
      simp [setKey, getStep_cons]
  | cons a rest ih =>
      obtain ⟨k', v'⟩ := a
      by_cases h : k' = k
      · subst h
        simp only [setKey, if_pos rfl, getStep_cons]
        by_cases hn : n = k' <;> simp [hn, getStep_cons]
      · by_cases hn : n = k'
        · subst hn
          have hnk : ¬ n = k := h
          simp [setKey, if_neg h, getStep_cons, hnk]
        · simp [setKey, if_neg h, getStep_cons, hn, ih]

/-- The invariant of claim C4, as a predicate on records. -/
def StepInvariant (r : UserRecord) : Prop :=
  ∀ n : Nat, getStep r.stepsCompleted n = true → n + 1 ≤ r.currentStep

theorem stepInvariant_updateUserStep {r : UserRecord} {k : Nat} (now : Nat)
    (h : StepInvariant r) (hk : r.currentStep = k) :
    StepInvariant (updateUserStep k true now r) := by
  intro n hn
  simp only [updateUserStep, getStep_setKey] at hn ⊢
  by_cases hnk : n = k
  · subst hnk
    simp
  · rw [if_neg hnk] at hn
    have := h n hn
    simp only [if_pos]
    omega

theorem stepInvariant_saveSocial (p : Platform) (u : String) (now : Nat)
    {r : UserRecord} (h : StepInvariant r) :
    StepInvariant (saveSocialUsername p u now r) := by
  cases p <;> exact h

theorem saveSocial_currentStep (p : Platform) (u : String) (now : Nat)
    (r : UserRecord) : (saveSocialUsername p u now r).currentStep = r.currentStep := by
  cases p <;> rfl

/-- A concrete record used by witnesses, parameterised by its current step. -/
def sampleRecord (step : Nat) : UserRecord :=
  { userId := 7, username := "u", firstName := "f", currentStep := step,
    stepsCompleted := [], bep20Address := none, twitter := none,
    instagram := none, screenshots := [], createdAt := 0, updatedAt := 0 }

/-! ## Claim theorems -/

/-- Claim C6: reset (shared by the `/reset` command and the
`restart_process` button) always leaves the record with `currentStep = 1`,
empty `stepsCompleted`, both social handles null and `walletAddress` null,
while the screenshots sequence and the fields id, displayName, handle and
createdAt are unchanged (`updatedAt` is refreshed, as the data model
requires of every mutation). -/
theorem reset_clears_progress_preserves_rest (r : UserRecord)
    (o : MembershipOutcome) (now : Nat) :
    (button_handler o now r .restartProcess).fst = resetUser now r ∧
    (resetUser now r).currentStep = 1 ∧
    (resetUser now r).stepsCompleted = [] ∧
    (resetUser now r).twitter = none ∧
    (resetUser now r).instagram = none ∧
    (resetUser now r).bep20Address = none ∧
    (resetUser now r).screenshots = r.screenshots ∧
    (resetUser now r).userId = r.userId ∧
    (resetUser now r).username = r.username ∧
    (resetUser now r).firstName = r.firstName ∧
    (resetUser now r).createdAt = r.createdAt :=
  ⟨rfl, rfl, rfl, rfl, rfl, rfl, rfl, rfl, rfl, rfl, rfl⟩

/-- Claim C7: `update_user_step` is idempotent with respect to retries:
re-applying it with the same `(step, completed)` pair gives the same record
as a single application (the second call overwrites every field the first
one set, `updated_at` included), and in particular the same final
`currentStep` and `stepsCompleted`. -/
theorem update_user_step_idempotent (r : UserRecord) (step : Nat)
    (completed : Bool) (n1 n2 : Nat) :
    updateUserStep step completed n2 (updateUserStep step completed n1 r) =
      updateUserStep step completed n2 r ∧
    (updateUserStep step completed n2 (updateUserStep step completed n1 r)).currentStep
      = (updateUserStep step completed n1 r).currentStep ∧
    (updateUserStep step completed n2 (updateUserStep step completed n1 r)).stepsCompleted
      = (updateUserStep step completed n1 r).stepsCompleted := by
  refine ⟨?_, ?_, ?_⟩ <;> simp [updateUserStep, setKey_setKey]

/-- Claim C8: at step 4 a failed membership query (collaborator unreachable
or query raising) is handled exactly like a not-member status: the record
is not advanced and the user is told to retry; the record advances to
step 5 precisely when the check reports membership. -/
theorem membership_check_fails_closed (r : UserRecord) (now : Nat)
    (o : MembershipOutcome) (h4 : r.currentStep = 4) :
    check_channel_membership .queryFailed = false ∧
    button_handler .queryFailed now r .verifyTelegram =
      button_handler (.ok .leftChat) now r .verifyTelegram ∧
    (check_channel_membership o = false →
      button_handler o now r .verifyTelegram = (r, .telegramRetry)) ∧
    (check_channel_membership o = true →
      button_handler o now r .verifyTelegram =
        (updateUserStep 4 true now r, .telegramVerified) ∧
      (button_handler o now r .verifyTelegram).fst.currentStep = 5) := by
  refine ⟨rfl, ?_, fun hm => ?_, fun hm => ?_⟩
  · simp [button_handler, h4, check_channel_membership]
  · simp [button_handler, h4, hm]
  · simp [button_handler, h4, hm, updateUserStep]

/-- Witness for C8 at a concrete record on step 4 with a failing query. -/
theorem membership_check_fails_closed_witness :
    button_handler .queryFailed 1 (sampleRecord 4) .verifyTelegram
      = (sampleRecord 4, .telegramRetry) :=
  (membership_check_fails_closed (sampleRecord 4) 1 .queryFailed rfl).2.2.1 rfl

/-- Claim C3: an event addressed to step k (the three step-addressed
buttons), received while the record's `currentStep` differs from k, is
rejected with the corresponding "not on this step" reply and the record is
not mutated; a text received while no text-expecting step (2, 3 or 5) is
current gets the default step prompt and no mutation (texts are dispatched
on `currentStep` itself, so a text branch for step k cannot run when
`currentStep` differs from k). -/
theorem wrong_step_event_rejected (r : UserRecord) (o : MembershipOutcome)
    (now : Nat) :
    (r.currentStep ≠ 1 →
      button_handler o now r .verifyStep1 = (r, .notOnStep1)) ∧
    (r.currentStep ≠ 4 →
      button_handler o now r .verifyTelegram = (r, .notOnTelegramStep)) ∧
    (r.currentStep ≠ 6 →
      button_handler o now r .completeProcess = (r, .notOnFinalStep)) ∧
    (r.currentStep ≠ 2 → r.currentStep ≠ 3 → r.currentStep ≠ 5 →
      ∀ t : String, handle_message now r t = (r, .stepPrompt r.currentStep)) := by
  refine ⟨fun h => ?_, fun h => ?_, fun h => ?_, fun h2 h3 h5 t => ?_⟩
  · simp [button_handler, h]
  · simp [button_handler, h]
  · simp [button_handler, h]
  · simp [handle_message, h2, h3, h5]

/-- Witness for C3 at a concrete completed record (step 7). -/
theorem wrong_step_event_rejected_witness :
    button_handler .queryFailed 1 (sampleRecord 7) .verifyStep1
      = (sampleRecord 7, .notOnStep1) ∧
    button_handler .queryFailed 1 (sampleRecord 7) .verifyTelegram
      = (sampleRecord 7, .notOnTelegramStep) ∧
    button_handler .queryFailed 1 (sampleRecord 7) .completeProcess
      = (sampleRecord 7, .notOnFinalStep) ∧
    handle_message 1 (sampleRecord 7) "hello" = (sampleRecord 7, .stepPrompt 7) := by
  have h := wrong_step_event_rejected (sampleRecord 7) .queryFailed 1
  exact ⟨h.1 (by decide), h.2.1 (by decide), h.2.2.1 (by decide),
    h.2.2.2 (by decide) (by decide) (by decide) "hello"⟩

/-- Claim C10: `validate_screenshot` imposes no lower bound on the size:
for every size at most 5242880 bytes (zero and negative included) the size
check passes and the verdict depends only on the lowercased file name's
extension; a name that is exactly an extension, such as ".jpg", is
accepted. -/
theorem screenshot_no_lower_bound (sz : Int) (fn : String)
    (h : sz ≤ 5242880) :
    validate_screenshot sz fn =
      (if hasValidExtension fn then (true, "Valid screenshot")
       else (false,
         "Invalid file type. Please send image files only (jpg, png, gif, etc.)")) ∧
    validate_screenshot sz ".jpg" = (true, "Valid screenshot") := by
  have hle : ¬ sz > 5 * 1024 * 1024 := by omega
  constructor
  · unfold validate_screenshot
    rw [if_neg hle]
    cases hb : hasValidExtension fn <;> simp [hb]
  · unfold validate_screenshot
    rw [if_neg hle]
    have hjpg : hasValidExtension ".jpg" = true := by decide
    simp [hjpg]

/-- Witness for C10 at a negative size and the bare-extension name. -/
theorem screenshot_no_lower_bound_witness :
    validate_screenshot (-1) ".jpg" = (true, "Valid screenshot") :=
  (screenshot_no_lower_bound (-1) ".jpg" (by omega)).2

/-- The reason strings `validate_bep20_address` can produce. -/
def bepReasons : List String :=
  ["Address cannot be empty",
   "Invalid BEP20 address format. Must be 42 characters starting with 0x",
   "Invalid address: Cannot use zero or dead addresses",
   "Valid BEP20 address"]

/-- The reason strings `validate_username` can produce. -/
def usernameReasons : List String :=
  ["Username cannot be empty",
   "Username must be at least 3 characters long",
   "Username cannot be longer than 30 characters",
   "Username can only contain letters, numbers, underscores, and dots",
   "Username cannot start with underscore or dot",
   "Username cannot end with underscore or dot",
   "Username cannot contain consecutive special characters",
   "Valid username"]

/-- The reason strings `validate_screenshot` can produce. -/
def screenshotReasons : List String :=
  ["File size too large. Maximum 5MB allowed",
   "Invalid file type. Please send image files only (jpg, png, gif, etc.)",
   "Valid screenshot"]

/-- Claim C9: each validator is a total function of its declared input
domain, modelled here as total computable Lean functions; every result is a
(flag, reason) pair whose reason belongs to the validator's fixed reason
set, with the flag true exactly on the success reason — there is no input
on which a validator fails to produce such a pair. -/
theorem validators_total_functions (a u fn : String) (sz : Int) :
    (validate_bep20_address a).snd ∈ bepReasons ∧
    ((validate_bep20_address a).fst = true ↔
      (validate_bep20_address a).snd = "Valid BEP20 address") ∧
    (validate_username u).snd ∈ usernameReasons ∧
    ((validate_username u).fst = true ↔
      (validate_username u).snd = "Valid username") ∧
    (validate_screenshot sz fn).snd ∈ screenshotReasons ∧
    ((validate_screenshot sz fn).fst = true ↔
      (validate_screenshot sz fn).snd = "Valid screenshot") := by
  refine ⟨?_, ?_, ?_, ?_, ?_, ?_⟩
  · dsimp only [validate_bep20_address]
    split_ifs <;> simp [bepReasons]
  · dsimp only [validate_bep20_address]
    split_ifs <;> simp
  · dsimp only [validate_username]
    split_ifs <;> simp [usernameReasons]
  · dsimp only [validate_username]
    split_ifs <;> simp
  · dsimp only [validate_screenshot]
    split_ifs <;> simp [screenshotReasons]
  · dsimp only [validate_screenshot]
    split_ifs <;> simp

theorem bep20Match_iff (l : List Char) :
    bep20Match l = true ↔
      (l.length = 42 ∧ l.take 2 = ['0', 'x'] ∧
        ∀ c ∈ l.drop 2, isHexDigitChar c = true) := by
  match l with
  | [] => simp [bep20Match]
  | [c] => simp [bep20Match]
  | c1 :: c2 :: rest =>
      simp only [bep20Match, Bool.and_eq_true, beq_iff_eq, List.all_eq_true,
        List.length_cons, List.take, List.drop, List.cons.injEq, and_true]
      constructor
      · rintro ⟨⟨⟨h1, h2⟩, h3⟩, h4⟩
        exact ⟨by omega, ⟨h1, h2⟩, h4⟩
      · rintro ⟨h1, ⟨h2, h3⟩, h4⟩
        exact ⟨⟨⟨h2, h3⟩, by omega⟩, h4⟩

/-- Claim C2 (amended): `validate_bep20_address` strips surrounding
whitespace first; it accepts iff the stripped string is exactly "0x"
followed by 40 hexadecimal characters and its (ASCII) lowercasing is
neither the zero nor the dead address; the EmptyInput reason is produced
exactly for the empty string (a whitespace-only input, being non-empty,
fails with the format reason instead). -/
theorem bep20_validation_characterized (s : String) :
    ((validate_bep20_address s).fst = true ↔
      (bep20Match (pyStrip s.data) = true ∧
       pyLower (pyStrip s.data) ≠ zeroAddress.data ∧
       pyLower (pyStrip s.data) ≠ deadAddress.data)) ∧
    ((validate_bep20_address s).snd = "Address cannot be empty" ↔ s = "") ∧
    ((validate_bep20_address s).snd =
        "Invalid BEP20 address format. Must be 42 characters starting with 0x" ↔
      (¬ s = "" ∧ bep20Match (pyStrip s.data) = false)) ∧
    ((validate_bep20_address s).snd =
        "Invalid address: Cannot use zero or dead addresses" ↔
      (¬ s = "" ∧ bep20Match (pyStrip s.data) = true ∧
       (pyLower (pyStrip s.data) = zeroAddress.data ∨
        pyLower (pyStrip s.data) = deadAddress.data))) ∧
    (bep20Match (pyStrip s.data) = true ↔
      ((pyStrip s.data).length = 42 ∧ (pyStrip s.data).take 2 = ['0', 'x'] ∧
        ∀ c ∈ (pyStrip s.data).drop 2, isHexDigitChar c = true)) := by
  refine ⟨?_, ?_, ?_, ?_, bep20Match_iff _⟩ <;>
    (by_cases h0 : s = ""
     · subst h0
       decide
     · dsimp only [validate_bep20_address]
       rw [if_neg h0]
       cases hm : bep20Match (pyStrip s.data)
       · simp [hm, h0]
       · by_cases hz : pyLower (pyStrip s.data) = zeroAddress.data
         · simp [hm, hz, h0]
         · by_cases hd : pyLower (pyStrip s.data) = deadAddress.data
           · simp [hm, hz, hd, h0]
           · simp [hm, hz, hd, h0])

/-- A well-formed address surrounded by whitespace: the code accepts it
after stripping, but it is not literally "0x" followed by 40 hex digits. -/
def leadingSpaceAddress : String := " 0x0123456789abcdef0123456789ABCDEF01234567"

/-- Modelled from the words of claim C2: acceptance requires the input
string itself (no stripping) to be exactly "0x" + 40 hex characters and
not lowercase-equal to the zero or dead address. -/
def claimAcceptsAddress (s : String) : Bool :=
  bep20Match s.data && !(pyLower s.data == zeroAddress.data) &&
    !(pyLower s.data == deadAddress.data)

/-- Counterexample to claim C2 as stated: the code accepts an address
carrying a leading space, which the claim's "the string is exactly 0x
followed by 40 hexadecimal characters" rejects. -/
theorem bep20_claim_counterexample :
    (validate_bep20_address leadingSpaceAddress).fst = true ∧
    claimAcceptsAddress leadingSpaceAddress = false := by
  constructor <;> decide

/-- Claim C5 (amended): at the store layer a second creation attempt for
an existing id leaves the store unchanged but reports failure
(`insert_one` raises on the duplicate key and the handler returns False),
not success; a first creation for a fresh id succeeds and initializes
`currentStep = 1`, no completed steps, and all optional fields unset. -/
theorem create_user_duplicate_and_init (st : Store) (idv : Nat)
    (r : UserRecord) (u f : String) (now : Nat) (hex : st idv = some r)
    (idn : Nat) (hnew : st idn = none) (u2 f2 : String) (now2 : Nat) :
    create_user st idv u f now = (st, false) ∧
    (create_user st idn u2 f2 now2).snd = true ∧
    (create_user st idn u2 f2 now2).fst idn = some (initRecord idn u2 f2 now2) ∧
    (initRecord idn u2 f2 now2).currentStep = 1 ∧
    (initRecord idn u2 f2 now2).stepsCompleted = [] ∧
    (initRecord idn u2 f2 now2).bep20Address = none ∧
    (initRecord idn u2 f2 now2).twitter = none ∧
    (initRecord idn u2 f2 now2).instagram = none ∧
    (initRecord idn u2 f2 now2).screenshots = [] := by
  refine ⟨?_, ?_, ?_, rfl, rfl, rfl, rfl, rfl, rfl⟩
  · simp [create_user, hex]
  · simp [create_user, hnew]
  · simp [create_user, hnew]

/-- A store holding exactly the record created for id 7. -/
def storeWithUser : Store := (create_user (fun _ => none) 7 "u" "f" 0).fst

/-- Counterexample to claim C5 as stated: a second creation attempt for
id 7 leaves the store unchanged (a no-op) but reports failure, where the
claim says it reports success. -/
theorem create_user_claim_counterexample :
    (create_user storeWithUser 7 "u" "f" 1).snd ≠ true ∧
    (create_user storeWithUser 7 "u" "f" 1).fst = storeWithUser := by
  exact ⟨by decide, rfl⟩

/-- A validation rule: a raw failure condition and its reason string. -/
structure HandleRule where
  pred : String → Bool
  msg : String

/-- The message of the first rule whose condition fires, if any. -/
def firstFailing : List HandleRule → String → Option String
  | [], _ => none
  | rl :: rest, s => if rl.pred s then some rl.msg else firstFailing rest s

/-- The rules of `validate_username` in source order: emptiness is tested
on the RAW input (before stripping), every later rule on the result of
stripping all leading "@" and surrounding whitespace. -/
def usernameRules : List HandleRule :=
  [⟨fun s => decide (s = ""), "Username cannot be empty"⟩,
   ⟨fun s => decide ((strippedHandle s).length < 3),
     "Username must be at least 3 characters long"⟩,
   ⟨fun s => decide ((strippedHandle s).length > 30),
     "Username cannot be longer than 30 characters"⟩,
   ⟨fun s => !(!(strippedHandle s).isEmpty && (strippedHandle s).all isHandleChar),
     "Username can only contain letters, numbers, underscores, and dots"⟩,
   ⟨fun s => (strippedHandle s).head? == some '_' ||
       (strippedHandle s).head? == some '.',
     "Username cannot start with underscore or dot"⟩,
   ⟨fun s => (strippedHandle s).getLast? == some '_' ||
       (strippedHandle s).getLast? == some '.',
     "Username cannot end with underscore or dot"⟩,
   ⟨fun s => hasSubstring ['_', '_'] (strippedHandle s) ||
       hasSubstring ['.', '.'] (strippedHandle s) ||
       hasSubstring ['.', '_'] (strippedHandle s) ||
       hasSubstring ['_', '.'] (strippedHandle s),
     "Username cannot contain consecutive special characters"⟩]

theorem validate_username_eq_firstRule (s : String) :
    validate_username s =
      match firstFailing usernameRules s with
      | some m => (false, m)
      | none => (true, "Valid username") := by
  dsimp only [validate_username, usernameRules, firstFailing]
  by_cases h1 : s = ""
  · simp [h1]
  · by_cases h2 : (strippedHandle s).length < 3
    · simp [h1, h2]
    · by_cases h3 : (strippedHandle s).length > 30
      · simp [h1, h2, h3]
      · by_cases h4 :
          (!(!(strippedHandle s).isEmpty && (strippedHandle s).all isHandleChar)) = true
        · simp [h1, h2, h3, h4]
        · by_cases h5 : ((strippedHandle s).head? == some '_' ||
              (strippedHandle s).head? == some '.') = true
          · simp [h1, h2, h3, h4, h5]
          · by_cases h6 : ((strippedHandle s).getLast? == some '_' ||
                (strippedHandle s).getLast? == some '.') = true
            · simp [h1, h2, h3, h4, h5, h6]
            · by_cases h7 : (hasSubstring ['_', '_'] (strippedHandle s) ||
                  hasSubstring ['.', '.'] (strippedHandle s) ||
                  hasSubstring ['.', '_'] (strippedHandle s) ||
                  hasSubstring ['_', '.'] (strippedHandle s)) = true
              · simp [h1, h2, h3, h4, h5, h6, h7]
              · simp [h1, h2, h3, h4, h5, h6, h7]

theorem validate_username_accepts_iff (s : String) :
    (validate_username s).fst = true ↔
      (¬ s = "" ∧ 3 ≤ (strippedHandle s).length ∧ (strippedHandle s).length ≤ 30 ∧
       (∀ c ∈ strippedHandle s, isHandleChar c = true) ∧
       (strippedHandle s).head? ≠ some '_' ∧ (strippedHandle s).head? ≠ some '.' ∧
       (strippedHandle s).getLast? ≠ some '_' ∧ (strippedHandle s).getLast? ≠ some '.' ∧
       hasSubstring ['_', '_'] (strippedHandle s) = false ∧
       hasSubstring ['.', '.'] (strippedHandle s) = false ∧
       hasSubstring ['.', '_'] (strippedHandle s) = false ∧
       hasSubstring ['_', '.'] (strippedHandle s) = false) := by
  rw [validate_username_eq_firstRule]
  dsimp only [usernameRules, firstFailing]
  split_ifs with a1 a2 a3 a4 a5 a6 a7 <;> simp_all
  · intro hall _ _ _ _ _ _ _
    rcases a4 with hnil | ⟨c, hc, hbad⟩
    · rw [hnil] at a2
      simp at a2
    · rw [hall c hc] at hbad
      simp at hbad
  · intro h1 h2 _ _ _ _ _
    rcases a5 with h | h
    · exact absurd h h1
    · exact absurd h h2
  · intro h1 h2 _ _ _
    rcases a6 with h | h
    · exact absurd h h1
    · exact absurd h h2
  · intro h1 h2 h3
    rcases a7 with ((h | h) | h) | h <;> simp_all

/-- Claim C1 (amended): `validate_username` reports EmptyInput exactly for
the raw empty string (the emptiness test precedes stripping, so an input
that strips to blank reports TooShort instead), then strips ALL leading
"@" characters and surrounding whitespace; it accepts iff the stripped
result has length in [3,30], contains only ASCII letters, digits,
underscore or period, does not start or end with underscore or period, and
contains none of "__", "..", "._", "_."; on rejection the reason is the
first violated rule in source order (empty, too short, too long, invalid
characters, bad leading character, bad trailing character, consecutive
specials). -/
theorem username_validation_characterized (s : String) :
    (validate_username s =
      match firstFailing usernameRules s with
      | some m => (false, m)
      | none => (true, "Valid username")) ∧
    ((validate_username s).fst = true ↔
      (¬ s = "" ∧ 3 ≤ (strippedHandle s).length ∧ (strippedHandle s).length ≤ 30 ∧
       (∀ c ∈ strippedHandle s, isHandleChar c = true) ∧
       (strippedHandle s).head? ≠ some '_' ∧ (strippedHandle s).head? ≠ some '.' ∧
       (strippedHandle s).getLast? ≠ some '_' ∧ (strippedHandle s).getLast? ≠ some '.' ∧
       hasSubstring ['_', '_'] (strippedHandle s) = false ∧
       hasSubstring ['.', '.'] (strippedHandle s) = false ∧
       hasSubstring ['.', '_'] (strippedHandle s) = false ∧
       hasSubstring ['_', '.'] (strippedHandle s) = false)) :=
  ⟨validate_username_eq_firstRule s, validate_username_accepts_iff s⟩

/-- Modelled from the words of claim C1: strip a SINGLE leading "@" (not
all of them) and surrounding whitespace, then accept iff the result is
non-blank, has length in [3,30], has only allowed characters, has no
special boundary character and no consecutive special pair. -/
def claimAcceptsHandle (s : String) : Bool :=
  let u := pyStrip (match s.data with
    | '@' :: rest => rest
    | l => l)
  !u.isEmpty && decide (3 ≤ u.length) && decide (u.length ≤ 30) &&
    u.all isHandleChar &&
    !(u.head? == some '_' || u.head? == some '.') &&
    !(u.getLast? == some '_' || u.getLast? == some '.') &&
    !(hasSubstring ['_', '_'] u || hasSubstring ['.', '.'] u ||
      hasSubstring ['.', '_'] u || hasSubstring ['_', '.'] u)

/-- Counterexample to claim C1 as stated: on "@@abc" the code strips every
leading "@" and accepts, while the claim's single-"@" stripping leaves
"@abc", whose "@" is outside the allowed characters, so the claim demands
rejection. -/
theorem username_claim_counterexample :
    (validate_username "@@abc").fst = true ∧
    claimAcceptsHandle "@@abc" = false := by
  constructor <;> decide

/-- Witness for C5 (amended) on the concrete one-user store. -/
theorem create_user_duplicate_and_init_witness :
    create_user storeWithUser 7 "u" "f" 1 = (storeWithUser, false) ∧
    (create_user storeWithUser 8 "a" "b" 2).snd = true := by
  have h := create_user_duplicate_and_init storeWithUser 7
    (initRecord 7 "u" "f" 0) "u" "f" 1 rfl 8 rfl "a" "b" 2
  exact ⟨h.1, h.2.1⟩

theorem stepInvariant_saveBep20 (a : String) (now : Nat) {r : UserRecord}
    (h : StepInvariant r) : StepInvariant (saveBep20Address a now r) := h

theorem reachable_stepInvariant {r : UserRecord} (h : Reachable r) :
    StepInvariant r := by
  induction h with
  | init id u f now =>
      intro n hn
      simp [initRecord, getStep, List.lookup] at hn
  | button o now e hr ih =>
      rename_i r
      cases e with
      | verifyStep1 =>
          by_cases hc : r.currentStep = 1
          · simpa [button_handler, hc] using stepInvariant_updateUserStep now ih hc
          · simpa [button_handler, hc] using ih
      | verifyTelegram =>
          by_cases hc : r.currentStep = 4
          · cases hm : check_channel_membership o
            · simpa [button_handler, hc, hm] using ih
            · simpa [button_handler, hc, hm] using stepInvariant_updateUserStep now ih hc
          · simpa [button_handler, hc] using ih
      | completeProcess =>
          by_cases hc : r.currentStep = 6
          · simpa [button_handler, hc] using stepInvariant_updateUserStep now ih hc
          · simpa [button_handler, hc] using ih
      | twitterInfo => simpa [button_handler] using ih
      | instagramInfo => simpa [button_handler] using ih
      | bep20Info => simpa [button_handler] using ih
      | restartProcess =>
          intro n hn
          simp [button_handler, resetUser, getStep, List.lookup] at hn
      | showStatus => simpa [button_handler] using ih
      | helpInfo => simpa [button_handler] using ih
  | message now t hr ih =>
      rename_i r
      by_cases h2 : r.currentStep = 2
      · simp [handle_message, h2, verify_social_follow]
        split_ifs <;>
          first
            | exact ih
            | exact stepInvariant_saveSocial .twitter _ now ih
            | exact stepInvariant_updateUserStep now
                (stepInvariant_saveSocial .twitter _ now ih)
                (by rw [saveSocial_currentStep]; exact h2)
      · by_cases h3 : r.currentStep = 3
        · simp [handle_message, h2, h3, verify_social_follow]
          split_ifs <;>
            first
              | exact ih
              | exact stepInvariant_saveSocial .instagram _ now ih
              | exact stepInvariant_updateUserStep now
                  (stepInvariant_saveSocial .instagram _ now ih)
                  (by rw [saveSocial_currentStep]; exact h3)
        · by_cases h5 : r.currentStep = 5
          · simp [handle_message, h2, h3, h5]
            split_ifs <;>
              first
                | exact ih
                | exact stepInvariant_saveBep20 _ now ih
                | exact stepInvariant_updateUserStep now
                    (stepInvariant_saveBep20 _ now ih) h5
          · simpa [handle_message, h2, h3, h5] using ih
  | resetCmd now hr ih =>
      intro n hn
      simp [resetUser, getStep, List.lookup] at hn

/-- Claim C4: in every record reachable from creation through the event
handlers (button events, text events, reset), a completed step n in 1..6
implies the current step is at least n + 1. -/
theorem completed_step_below_current (r : UserRecord) (h : Reachable r)
    (n : Nat) (h1 : 1 ≤ n) (h6 : n ≤ 6)
    (hc : getStep r.stepsCompleted n = true) : n + 1 ≤ r.currentStep :=
  reachable_stepInvariant h n hc

/-- Witness for C4: after confirming step 1 from a fresh record, step 1 is
marked complete and the current step is 2. -/
theorem completed_step_below_current_witness :
    getStep (button_handler .queryFailed 1 (initRecord 7 "u" "f" 0)
      .verifyStep1).fst.stepsCompleted 1 = true ∧
    1 + 1 ≤ (button_handler .queryFailed 1 (initRecord 7 "u" "f" 0)
      .verifyStep1).fst.currentStep :=
  ⟨by decide,
   completed_step_below_current _
     (Reachable.button .queryFailed 1 .verifyStep1 (Reachable.init 7 "u" "f" 0))
     1 (by decide) (by decide) (by decide)⟩

end Vault
